import Mathlib

/-!
Verification development for the `st_app.py` customer-satisfaction dashboard.

Shallow embedding conventions:
* pandas timestamps are nanoseconds since the epoch (`Int`); a missing
  timestamp (`NaT`) is `Option.none`.
* The float column `delivery_delay` produced by `.dt.days` holds either an
  integer number of days or `NaN` (when a timestamp was `NaT`); it is
  modelled as `Option Int`, with `none` playing the role of `NaN`.
  IEEE comparisons against `NaN` are false, which `optLe` reproduces.
* A pandas `Timedelta`'s `.days` component follows Python `timedelta`
  normalisation: it is the floor of the nanosecond count divided by the
  nanoseconds in a day (so `-12h` has `.days = -1`), hence `Int.fdiv`.
* A DataFrame is a `List` of row structures; `groupby(...).mean()` skips
  missing values, `sort_values(..., ascending=False)` places missing keys
  last, `head(10)` is `List.take 10`.
* The Streamlit script runs top to bottom once per interaction; `st.stop()`
  ends the run, and an uncaught exception from `pd.read_csv` aborts the run
  before anything is rendered.
-/

/-- Nanoseconds in one day (pandas timestamps have nanosecond resolution). -/
def nsPerDay : Int := 86400000000000

/-- `(a - b).dt.days`: floor of the timestamp difference in whole days,
`none` (NaN) when either operand is `NaT`. -/
def tdDays (a b : Option Int) : Option Int :=
  match a, b with
  | some x, some y => some (Int.fdiv (x - y) nsPerDay)
  | _, _ => none

/-- Comparison `d <= c` on the float delay column: false when `d` is NaN. -/
def optLe (d : Option Int) (c : Int) : Bool :=
  match d with
  | some v => decide (v ≤ c)
  | none => false

/-- The lambda at line 40:
`"On-time" if d <= 0 else ("Slightly Late" if d <= 7 else "Very Late")`. -/
def delayCategoryApply (d : Option Int) : String :=
  if optLe d 0 then "On-time"
  else if optLe d 7 then "Slightly Late"
  else "Very Late"

/-- The lambda at line 44:
`"Bad" if s <= 2 else ("Neutral" if s == 3 else "Good")`. -/
def reviewCategoryApply (s : Int) : String :=
  if s ≤ 2 then "Bad"
  else if s = 3 then "Neutral"
  else "Good"

/-- One raw CSV row after `pd.read_csv` with the four `parse_dates` columns. -/
structure RawRow where
  order_purchase_timestamp : Option Int
  order_approved_at : Option Int
  order_delivered_customer_date : Option Int
  order_estimated_delivery_date : Option Int
  review_score : Int
  freight_value : ℚ
  seller_id : String
  customer_city : String
  product_id : String
deriving DecidableEq

/-- A row of the augmented DataFrame: the raw columns plus the four derived
columns added at lines 36-45. -/
structure Row extends RawRow where
  delivery_delay : Option Int
  processing_time : Option Int
  delay_category : String
  review_category : String
deriving DecidableEq

/-- Feature derivation (lines 36-45) applied to one row. -/
def deriveRow (r : RawRow) : Row :=
  { toRawRow := r
    delivery_delay := tdDays r.order_delivered_customer_date r.order_estimated_delivery_date
    processing_time := tdDays r.order_approved_at r.order_purchase_timestamp
    delay_category :=
      delayCategoryApply (tdDays r.order_delivered_customer_date r.order_estimated_delivery_date)
    review_category := reviewCategoryApply r.review_score }

/-- Feature derivation over the whole table. -/
def deriveTable (t : List RawRow) : List Row := t.map deriveRow

/-- Mean of a float column, pandas-style: missing values are skipped; the
mean of an all-missing (or empty) column is missing. -/
def meanOpt (xs : List (Option ℚ)) : Option ℚ :=
  let v := xs.filterMap id
  if v.length = 0 then none else some (v.sum / v.length)

/-- The `delivery_delay` column of a row, as the float it is in pandas. -/
def delayQ (r : Row) : Option ℚ := r.delivery_delay.map fun z => (z : ℚ)

/-- The `processing_time` column of a row, as the float it is in pandas. -/
def procQ (r : Row) : Option ℚ := r.processing_time.map fun z => (z : ℚ)

/-- One output row of `groupby(key)[[...]].mean()`. -/
structure AggRow where
  key : String
  mean_delay : Option ℚ
  mean_processing : Option ℚ
  mean_freight : Option ℚ
deriving DecidableEq

/-- The distinct values of the grouping key, in first-appearance order. -/
def groupKeys (key : Row → String) (t : List Row) : List String :=
  (t.map key).dedup

/-- The aggregated row for one group: per-group means of the three metrics. -/
def aggRowFor (key : Row → String) (t : List Row) (k : String) : AggRow :=
  let g := t.filter fun r => key r = k
  { key := k
    mean_delay := meanOpt (g.map delayQ)
    mean_processing := meanOpt (g.map procQ)
    mean_freight := meanOpt (g.map fun r => some r.freight_value) }

/-- Descending comparison on possibly-missing means: `a` may precede `b`
when `a ≥ b`, with missing values (NaN) sorting last, as
`sort_values(..., ascending=False)` does. -/
def descBLE (a b : Option ℚ) : Bool :=
  match a, b with
  | some x, some y => decide (y ≤ x)
  | some _, none => true
  | none, some _ => false
  | none, none => true

theorem descBLE_total (a b : Option ℚ) : descBLE a b = true ∨ descBLE b a = true := by
  cases a with
  | none => cases b <;> simp [descBLE]
  | some x =>
    cases b with
    | none => simp [descBLE]
    | some y => simpa [descBLE] using le_total y x

theorem descBLE_trans (a b c : Option ℚ) (hab : descBLE a b = true)
    (hbc : descBLE b c = true) : descBLE a c = true := by
  cases a <;> cases b <;> cases c <;> simp_all [descBLE]
  exact le_trans hbc hab

/-- Boolean order used by `sort_values("delivery_delay", ascending=False)`. -/
def delayDescBLE (a b : AggRow) : Bool := descBLE a.mean_delay b.mean_delay

/-- The sort order as a relation, for sortedness statements. -/
def DelayDescLE (a b : AggRow) : Prop := delayDescBLE a b = true

instance : DecidableRel DelayDescLE := fun a b => decEq (delayDescBLE a b) true

instance : IsTotal AggRow DelayDescLE where
  total a b := descBLE_total a.mean_delay b.mean_delay

instance : IsTrans AggRow DelayDescLE where
  trans a b c hab hbc := descBLE_trans a.mean_delay b.mean_delay c.mean_delay hab hbc

/-- `groupby(key)[["delivery_delay","processing_time","freight_value"]]
.mean().sort_values("delivery_delay", ascending=False).head(10)`
(lines 114-120, 134-140, 154-160; `reset_index` only renames the index). -/
def aggregateTop10 (key : Row → String) (t : List Row) : List AggRow :=
  (((groupKeys key t).map (aggRowFor key t)).insertionSort DelayDescLE).take 10

/-- `sellers` (lines 114-120). -/
def sellers (t : List Row) : List AggRow := aggregateTop10 (fun r => r.seller_id) t

/-- `cities` (lines 134-140). -/
def cities (t : List Row) : List AggRow := aggregateTop10 (fun r => r.customer_city) t

/-- `products` (lines 154-160). -/
def products (t : List Row) : List AggRow := aggregateTop10 (fun r => r.product_id) t

/-- A rendered page element: `st.title`, `st.markdown`, `st.warning`,
`st.plotly_chart` of a `px.box` figure, or `st.plotly_chart` of a `px.bar`
figure carrying the aggregated table it plots. -/
inductive El where
  | title (s : String)
  | markdown (s : String)
  | warning (s : String)
  | boxChart (x y : String)
  | barChart (x : String) (data : List AggRow)
deriving DecidableEq

/-- Whether an element is a warning banner. -/
def El.isWarning : El → Bool
  | .warning _ => true
  | _ => false

/-- Whether an element is a chart. -/
def El.isChart : El → Bool
  | .boxChart _ _ => true
  | .barChart _ _ => true
  | _ => false

/-- Warning text shown by the two guarded pages (lines 77 and 108). -/
def uploadWarning : String := "➡️  Please upload a dataset to view this analysis."

/-- Block at lines 52-68: the Welcome page, never guarded. -/
def welcomeBlock (page : String) : List El :=
  if page = "Welcome" then
    [.title "🚀 Customer Satisfaction Case Study",
     .markdown "Why this app? ... Sections ... Data to Upload for Analysis"]
  else []

/-- Block at lines 73-99: Understanding the Problem. Returns the rendered
elements and whether `st.stop()` was reached. -/
def understandingBlock (page : String) (df : Option (List Row)) : List El × Bool :=
  if page = "Understanding the Problem" then
    match df with
    | none => ([.title "Understanding the Problem", .warning uploadWarning], true)
    | some _ =>
      ([.title "Understanding the Problem",
        .markdown "Focus KPIs: Delivery Delay, Processing Time, Freight Value vs Review Score.",
        .boxChart "review_category" "delivery_delay",
        .boxChart "review_category" "processing_time",
        .boxChart "review_category" "freight_value"], false)
  else ([], false)

/-- Block at lines 104-171: Factors and Causes. Returns the rendered
elements and whether `st.stop()` was reached. -/
def factorsBlock (page : String) (df : Option (List Row)) : List El × Bool :=
  if page = "Factors and Causes" then
    match df with
    | none => ([.title "Factors and Causes", .warning uploadWarning], true)
    | some d =>
      ([.title "Factors and Causes",
        .markdown "Which sellers, cities, and products are most problematic?",
        .barChart "seller_id" (sellers d),
        .barChart "customer_city" (cities d),
        .barChart "product_id" (products d)], false)
  else ([], false)

/-- Block at lines 176-189: Conclusion and Insights. Static text, with no
dataset guard in the source. -/
def conclusionBlock (page : String) : List El :=
  if page = "Conclusion and Insights" then
    [.title "Conclusion & Insights",
     .markdown "Key Findings ... Next Moves"]
  else []

/-- One top-to-bottom run of the page blocks (lines 52-189): the four `if`
blocks execute in order, and `st.stop()` ends the run early. -/
def runApp (page : String) (df : Option (List Row)) : List El :=
  let w := welcomeBlock page
  let (u, su) := understandingBlock page df
  if su then w ++ u
  else
    let (f, sf) := factorsBlock page df
    if sf then w ++ u ++ f
    else w ++ u ++ f ++ conclusionBlock page

/-- One full script run including the load block (lines 25-47): no upload
yields `df = None`; an upload is read by `pd.read_csv`, whose failure raises
an exception that no repository code catches, aborting the run before any
element is rendered; a successful read is feature-derived and rendered. -/
def runScript (page : String) (upload : Option (Except String (List RawRow))) :
    Except String (List El) :=
  match upload with
  | none => .ok (runApp page none)
  | some (.error e) => .error e
  | some (.ok raws) => .ok (runApp page (some (deriveTable raws)))

/-- Whether a script run produced rendered output (as opposed to aborting
with an uncaught exception). -/
def renderedOk : Except String (List El) → Bool
  | .ok _ => true
  | .error _ => false

/-! ### Helper lemmas about the top-10 aggregation -/

theorem aggRowFor_key (key : Row → String) (t : List Row) (k : String) :
    (aggRowFor key t k).key = k := rfl

theorem aggregateTop10_length (key : Row → String) (t : List Row) :
    (aggregateTop10 key t).length = min 10 (groupKeys key t).length := by
  unfold aggregateTop10
  rw [List.length_take, (List.perm_insertionSort _ _).length_eq, List.length_map]

theorem map_key_aggRows (key : Row → String) (t : List Row) :
    ((groupKeys key t).map (aggRowFor key t)).map AggRow.key = groupKeys key t := by
  rw [List.map_map]
  have h : AggRow.key ∘ aggRowFor key t = id := rfl
  rw [h, List.map_id]

theorem aggregateTop10_nodup (key : Row → String) (t : List Row) :
    ((aggregateTop10 key t).map AggRow.key).Nodup := by
  have h0 : (groupKeys key t).Nodup := List.nodup_dedup _
  have hperm :
      List.Perm
        ((((groupKeys key t).map (aggRowFor key t)).insertionSort DelayDescLE).map AggRow.key)
        (((groupKeys key t).map (aggRowFor key t)).map AggRow.key) :=
    (List.perm_insertionSort _ _).map _
  have hsub :
      List.Sublist ((aggregateTop10 key t).map AggRow.key)
        ((((groupKeys key t).map (aggRowFor key t)).insertionSort DelayDescLE).map AggRow.key) :=
    List.Sublist.map _ (List.take_sublist _ _)
  refine List.Nodup.sublist hsub ?_
  refine hperm.nodup_iff.mpr ?_
  rw [map_key_aggRows]
  exact h0

theorem aggregateTop10_sorted (key : Row → String) (t : List Row) :
    List.Sorted DelayDescLE (aggregateTop10 key t) :=
  List.Pairwise.sublist (List.take_sublist _ _) (List.sorted_insertionSort _ _)

theorem aggregateTop10_mem (key : Row → String) (t : List Row) (a : AggRow)
    (h : a ∈ aggregateTop10 key t) :
    ∃ k, k ∈ groupKeys key t ∧ a = aggRowFor key t k := by
  have h1 := List.mem_of_mem_take h
  have h2 := ((List.perm_insertionSort _ _).mem_iff).mp h1
  rcases List.mem_map.mp h2 with ⟨k, hk, rfl⟩
  exact ⟨k, hk, rfl⟩

theorem meanOpt_all_none (xs : List (Option ℚ)) (h : ∀ x ∈ xs, x = none) :
    meanOpt xs = none := by
  have hnil : xs.filterMap id = [] := List.filterMap_eq_nil_iff.mpr h
  simp [meanOpt, hnil]

theorem meanOpt_cons_none (ds : List (Option ℚ)) :
    meanOpt (none :: ds) = meanOpt ds := by
  simp [meanOpt, List.filterMap_cons_none]

/-! ### Concrete inputs used by counterexamples and witnesses -/

/-- Build a raw row; arguments follow the column order of the data model. -/
def mkRaw (p a d e : Option Int) (s : Int) (f : ℚ) (sid city pid : String) : RawRow :=
  ⟨p, a, d, e, s, f, sid, city, pid⟩

/-- Delivered at midnight, estimated at noon of the same day: the difference
is minus half a day. -/
def rowHalfDayEarly : RawRow :=
  mkRaw none none (some 0) (some 43200000000000) 5 0 "s" "c" "p"

/-- Delivered exactly one day after the estimate. -/
def rowOneDayLate : RawRow :=
  mkRaw none none (some 86400000000000) (some 0) 5 0 "s" "c" "p"

/-- Delivered-to-customer date missing (`NaT`). -/
def rowMissingDelivered : RawRow :=
  mkRaw (some 0) (some 0) none (some 0) 5 0 "s" "c" "p"

/-- A raw row delivered exactly `k` days after the estimate, with review
score `s`. -/
def rowDelay (k : Int) (s : Int) : RawRow :=
  mkRaw none none (some (k * 86400000000000)) (some 0) s 0 "s" "c" "p"

/-! ### Claims -/

/-- C1 counterexample: for a delivery half a day early the difference
truncated to whole days is 0, but the code's `.dt.days` stores -1 (it
floors toward minus infinity), so `delivery_delay` does not equal the
truncated difference. -/
theorem c1_counterexample :
    (deriveRow rowHalfDayEarly).delivery_delay ≠
      some (((0 : Int) - 43200000000000).tdiv nsPerDay) ∧
    (deriveRow rowHalfDayEarly).delivery_delay = some (-1) ∧
    ((0 : Int) - 43200000000000).tdiv nsPerDay = 0 := by
  refine ⟨?_, rfl, by decide⟩
  decide

/-- C1 (amended): when both the delivered and the estimated date are
present, `delivery_delay` is the difference in whole days rounded toward
minus infinity (the unique `q` with `q` days ≤ difference < `q+1` days),
and it is missing when either date is absent. -/
theorem c1_delivery_delay_floor (r : RawRow) :
    (∀ x y, r.order_delivered_customer_date = some x →
      r.order_estimated_delivery_date = some y →
      ∃ q, (deriveRow r).delivery_delay = some q ∧
        q * nsPerDay ≤ x - y ∧ x - y < (q + 1) * nsPerDay) ∧
    (r.order_delivered_customer_date = none ∨
      r.order_estimated_delivery_date = none →
      (deriveRow r).delivery_delay = none) := by
  constructor
  · intro x y hx hy
    refine ⟨(x - y).fdiv nsPerDay, ?_, ?_⟩
    · show tdDays r.order_delivered_customer_date r.order_estimated_delivery_date = _
      rw [hx, hy]
      rfl
    · have hd : (0 : Int) ≤ nsPerDay := by decide
      rw [Int.fdiv_eq_ediv _ hd]
      simp only [nsPerDay]
      omega
  · intro h
    show tdDays r.order_delivered_customer_date r.order_estimated_delivery_date = none
    rcases h with h | h
    · rw [h]
      cases r.order_estimated_delivery_date <;> rfl
    · rw [h]
      cases r.order_delivered_customer_date <;> rfl

/-- C1 witness: the amended theorem applied to a one-day-late row and to a
row with a missing delivered date. -/
theorem c1_witness :
    (∃ q, (deriveRow rowOneDayLate).delivery_delay = some q ∧
      q * nsPerDay ≤ 86400000000000 - 0 ∧ 86400000000000 - 0 < (q + 1) * nsPerDay) ∧
    (deriveRow rowMissingDelivered).delivery_delay = none := by
  exact ⟨(c1_delivery_delay_floor rowOneDayLate).1 86400000000000 0 rfl rfl,
    (c1_delivery_delay_floor rowMissingDelivered).2 (Or.inl rfl)⟩

/-- C2: a row whose derived `delivery_delay` is the integer `d` gets
`delay_category` "On-time" when `d ≤ 0`, "Slightly Late" when `0 < d ≤ 7`,
and "Very Late" when `d > 7`; ties fall to the lower-severity bucket. -/
theorem c2_delay_category (r : RawRow) (d : Int)
    (hd : (deriveRow r).delivery_delay = some d) :
    (d ≤ 0 → (deriveRow r).delay_category = "On-time") ∧
    (0 < d ∧ d ≤ 7 → (deriveRow r).delay_category = "Slightly Late") ∧
    (7 < d → (deriveRow r).delay_category = "Very Late") := by
  have hcat : (deriveRow r).delay_category = delayCategoryApply (some d) := by
    show delayCategoryApply
        (tdDays r.order_delivered_customer_date r.order_estimated_delivery_date) = _
    rw [show tdDays r.order_delivered_customer_date r.order_estimated_delivery_date
        = some d from hd]
  refine ⟨fun h0 => ?_, fun h7 => ?_, fun h8 => ?_⟩
  · rw [hcat]
    simp [delayCategoryApply, optLe, h0]
  · rw [hcat]
    simp [delayCategoryApply, optLe, h7.2, show ¬ (d ≤ 0) by omega]
  · rw [hcat]
    simp [delayCategoryApply, optLe, show ¬ (d ≤ 0) by omega, show ¬ (d ≤ 7) by omega]

/-- C2 witness: delays 0, 7 and 8 land in "On-time", "Slightly Late" and
"Very Late" respectively. -/
theorem c2_witness :
    (deriveRow (rowDelay 0 5)).delay_category = "On-time" ∧
    (deriveRow (rowDelay 7 5)).delay_category = "Slightly Late" ∧
    (deriveRow (rowDelay 8 5)).delay_category = "Very Late" := by
  refine ⟨(c2_delay_category (rowDelay 0 5) 0 (by decide)).1 (by decide),
    (c2_delay_category (rowDelay 7 5) 7 (by decide)).2.1 (by decide),
    (c2_delay_category (rowDelay 8 5) 8 (by decide)).2.2 (by decide)⟩

/-- C3: a row with integer review score `s` between 1 and 5 gets
`review_category` "Bad" when `s ≤ 2`, "Neutral" when `s = 3`, and "Good"
when `s ≥ 4`. -/
theorem c3_review_category (r : RawRow) (s : Int) (hs : r.review_score = s)
    (h1 : 1 ≤ s) (h5 : s ≤ 5) :
    (s ≤ 2 → (deriveRow r).review_category = "Bad") ∧
    (s = 3 → (deriveRow r).review_category = "Neutral") ∧
    (4 ≤ s → (deriveRow r).review_category = "Good") := by
  have hcat : (deriveRow r).review_category = reviewCategoryApply s := by
    show reviewCategoryApply r.review_score = _
    rw [hs]
  refine ⟨fun h => ?_, fun h => ?_, fun h => ?_⟩
  · rw [hcat]
    simp [reviewCategoryApply, h]
  · rw [hcat, h]
    norm_num [reviewCategoryApply]
  · rw [hcat]
    simp [reviewCategoryApply, show ¬ (s ≤ 2) by omega, show ¬ (s = 3) by omega]

/-- C3 witness: scores 2, 3 and 4 land in "Bad", "Neutral" and "Good". -/
theorem c3_witness :
    (deriveRow (rowDelay 0 2)).review_category = "Bad" ∧
    (deriveRow (rowDelay 0 3)).review_category = "Neutral" ∧
    (deriveRow (rowDelay 0 4)).review_category = "Good" := by
  refine ⟨(c3_review_category (rowDelay 0 2) 2 rfl (by decide) (by decide)).1 (by decide),
    (c3_review_category (rowDelay 0 3) 3 rfl (by decide) (by decide)).2.1 (by decide),
    (c3_review_category (rowDelay 0 4) 4 rfl (by decide) (by decide)).2.2 (by decide)⟩

/-- A row whose derived `delivery_delay` is missing is assigned the bucket
"Very Late" by the category lambda. -/
theorem delay_category_of_missing (r : RawRow)
    (h : (deriveRow r).delivery_delay = none) :
    (deriveRow r).delay_category = "Very Late" := by
  show delayCategoryApply
      (tdDays r.order_delivered_customer_date r.order_estimated_delivery_date) = _
  rw [show tdDays r.order_delivered_customer_date r.order_estimated_delivery_date
      = none from h]
  rfl

/-- C10: when `delivery_delay` is missing (NaN from a missing timestamp),
both NaN comparisons in the category lambda are false, so the final else
branch assigns the row the bucket "Very Late". -/
theorem c10_nan_gets_very_late (r : RawRow)
    (h : (deriveRow r).delivery_delay = none) :
    optLe none 0 = false ∧ optLe none 7 = false ∧
    (deriveRow r).delay_category = "Very Late" :=
  ⟨rfl, rfl, delay_category_of_missing r h⟩

/-- C10 witness: a row with a missing delivered-to-customer date is
bucketed "Very Late". -/
theorem c10_witness :
    optLe none 0 = false ∧ optLe none 7 = false ∧
    (deriveRow rowMissingDelivered).delay_category = "Very Late" :=
  c10_nan_gets_very_late rowMissingDelivered rfl

/-- C6 counterexample: a row with a missing delivered date has an undefined
`delivery_delay`, yet it is not excluded from categorical bucketing — the
lambda assigns it the ordinary bucket "Very Late". -/
theorem c6_counterexample :
    (deriveRow rowMissingDelivered).delivery_delay = none ∧
    (deriveRow rowMissingDelivered).delay_category = "Very Late" ∧
    (deriveRow rowMissingDelivered).delay_category ∈
      ["On-time", "Slightly Late", "Very Late"] := by
  refine ⟨rfl, rfl, by decide⟩

/-- A raw row whose only missing timestamp is the approval one. -/
def rowMissingApproved : RawRow :=
  mkRaw (some 0) none (some 0) (some 0) 5 0 "s" "c" "p"

/-- C6 (amended): for every row whose timestamps include a missing value,
feature derivation does not fail the batch: the derived column that depends
on a missing timestamp is propagated as undefined — `delivery_delay` when
the delivered or estimated date is missing, `processing_time` when the
purchase or approval timestamp is missing — and an undefined value is
skipped by the downstream per-group means; however a row with undefined
`delivery_delay` is not excluded from categorical bucketing: the category
lambda assigns it "Very Late". -/
theorem c6_missing_timestamp (r : RawRow)
    (h : r.order_purchase_timestamp = none ∨ r.order_approved_at = none ∨
      r.order_delivered_customer_date = none ∨
      r.order_estimated_delivery_date = none) :
    ((r.order_delivered_customer_date = none ∨
        r.order_estimated_delivery_date = none) →
      (deriveRow r).delivery_delay = none ∧
      (deriveRow r).delay_category = "Very Late" ∧
      ∀ ds : List (Option ℚ), meanOpt (delayQ (deriveRow r) :: ds) = meanOpt ds) ∧
    ((r.order_purchase_timestamp = none ∨ r.order_approved_at = none) →
      (deriveRow r).processing_time = none ∧
      ∀ ds : List (Option ℚ), meanOpt (procQ (deriveRow r) :: ds) = meanOpt ds) := by
  constructor
  · intro hd
    have hnone : (deriveRow r).delivery_delay = none := by
      show tdDays r.order_delivered_customer_date r.order_estimated_delivery_date = none
      rcases hd with hd | hd
      · rw [hd]
        cases r.order_estimated_delivery_date <;> rfl
      · rw [hd]
        cases r.order_delivered_customer_date <;> rfl
    refine ⟨hnone, delay_category_of_missing r hnone, fun ds => ?_⟩
    rw [show delayQ (deriveRow r) = none by rw [delayQ, hnone]; rfl]
    exact meanOpt_cons_none ds
  · intro hp
    have hnone : (deriveRow r).processing_time = none := by
      show tdDays r.order_approved_at r.order_purchase_timestamp = none
      rcases hp with hp | hp
      · rw [hp]
        cases r.order_approved_at <;> rfl
      · rw [hp]
        cases r.order_purchase_timestamp <;> rfl
    refine ⟨hnone, fun ds => ?_⟩
    rw [show procQ (deriveRow r) = none by rw [procQ, hnone]; rfl]
    exact meanOpt_cons_none ds

/-- C6 witness: the amended theorem applied to a row with a missing
delivered date (delay facts) and to a row with a missing approval timestamp
(processing facts), with the mean-exclusion facts instantiated at a
one-element column. -/
theorem c6_witness :
    ((deriveRow rowMissingDelivered).delivery_delay = none ∧
      (deriveRow rowMissingDelivered).delay_category = "Very Late" ∧
      meanOpt (delayQ (deriveRow rowMissingDelivered) :: [some 1]) = meanOpt [some 1]) ∧
    ((deriveRow rowMissingApproved).processing_time = none ∧
      meanOpt (procQ (deriveRow rowMissingApproved) :: [some 1]) = meanOpt [some 1]) :=
  have hdel := (c6_missing_timestamp rowMissingDelivered
    (Or.inr (Or.inr (Or.inl rfl)))).1 (Or.inl rfl)
  have happ := (c6_missing_timestamp rowMissingApproved
    (Or.inr (Or.inl rfl))).2 (Or.inr rfl)
  ⟨⟨hdel.1, hdel.2.1, hdel.2.2 [some 1]⟩, ⟨happ.1, happ.2 [some 1]⟩⟩

/-- C8: feature derivation is idempotent — re-deriving from the raw columns
of an already-derived table reproduces the same augmented table, derived
columns included. -/
theorem c8_derive_idempotent (t : List RawRow) :
    deriveTable ((deriveTable t).map Row.toRawRow) = deriveTable t := by
  simp only [deriveTable, List.map_map]
  rfl

/-- Fifteen raw rows with fifteen distinct seller ids, delivered `i` days
after the estimate. -/
def raw15 : List RawRow :=
  (List.range 15).map fun i =>
    mkRaw none none (some ((i : Int) * 86400000000000)) (some 0) 5 1
      ("s" ++ toString i) "c" "p"

/-- C4: each of the three Factors-and-Causes aggregations keeps at most ten
groups (exactly `min 10 #groups`), has no duplicate grouping keys, and is
sorted descending by mean delivery delay; with 15 distinct seller ids the
sellers view has exactly 10 rows. -/
theorem c4_top10_aggregations (t : List Row) :
    ((sellers t).length = min 10 (groupKeys (fun r => r.seller_id) t).length ∧
      ((sellers t).map AggRow.key).Nodup ∧
      List.Sorted DelayDescLE (sellers t)) ∧
    ((cities t).length = min 10 (groupKeys (fun r => r.customer_city) t).length ∧
      ((cities t).map AggRow.key).Nodup ∧
      List.Sorted DelayDescLE (cities t)) ∧
    ((products t).length = min 10 (groupKeys (fun r => r.product_id) t).length ∧
      ((products t).map AggRow.key).Nodup ∧
      List.Sorted DelayDescLE (products t)) ∧
    ((groupKeys (fun r => r.seller_id) t).length = 15 →
      (sellers t).length = 10) := by
  refine ⟨⟨aggregateTop10_length _ t, aggregateTop10_nodup _ t, aggregateTop10_sorted _ t⟩,
    ⟨aggregateTop10_length _ t, aggregateTop10_nodup _ t, aggregateTop10_sorted _ t⟩,
    ⟨aggregateTop10_length _ t, aggregateTop10_nodup _ t, aggregateTop10_sorted _ t⟩,
    fun h15 => ?_⟩
  show (aggregateTop10 (fun r => r.seller_id) t).length = 10
  rw [aggregateTop10_length _ t, h15]
  rfl

/-- C4 witness: the derived 15-seller table has 15 distinct seller ids, and
its top-sellers aggregation has exactly 10 rows. -/
theorem c4_witness :
    (groupKeys (fun r => r.seller_id) (deriveTable raw15)).length = 15 ∧
    (sellers (deriveTable raw15)).length = 10 :=
  ⟨by decide, (c4_top10_aggregations (deriveTable raw15)).2.2.2 (by decide)⟩

/-- Two raw rows, both with a missing delivered date, two distinct sellers. -/
def raw2 : List RawRow :=
  [mkRaw none none none (some 0) 5 1 "s1" "c" "p",
   mkRaw none none none (some 0) 4 2 "s2" "c" "p"]

/-- C9: the top-10 aggregation degrades gracefully on degenerate input — it
is a total computation that yields at most ten groups, strictly fewer when
there are fewer than ten distinct keys, and an all-missing delay column
simply yields groups whose mean delay is missing. -/
theorem c9_degenerate_aggregation (t : List Row) :
    ((groupKeys (fun r => r.seller_id) t).length < 10 → (sellers t).length < 10) ∧
    ((∀ r ∈ t, r.delivery_delay = none) →
      (sellers t).map AggRow.mean_delay = List.replicate (sellers t).length none) ∧
    (sellers t).length ≤ 10 ∧ (cities t).length ≤ 10 ∧ (products t).length ≤ 10 := by
  refine ⟨fun hlt => ?_, fun hall => ?_, ?_, ?_, ?_⟩
  · show (aggregateTop10 (fun r => r.seller_id) t).length < 10
    rw [aggregateTop10_length _ t]
    omega
  · refine List.eq_replicate_iff.mpr ⟨by rw [List.length_map], fun x hx => ?_⟩
    rcases List.mem_map.mp hx with ⟨a, ha, rfl⟩
    rcases aggregateTop10_mem _ t a ha with ⟨k, _, rfl⟩
    show meanOpt ((t.filter fun r => r.seller_id = k).map delayQ) = none
    refine meanOpt_all_none _ fun x hx => ?_
    rcases List.mem_map.mp hx with ⟨r, hr, rfl⟩
    rw [delayQ, hall r (List.mem_of_mem_filter hr)]
    rfl
  · show (aggregateTop10 (fun r => r.seller_id) t).length ≤ 10
    rw [aggregateTop10_length _ t]
    omega
  · show (aggregateTop10 (fun r => r.customer_city) t).length ≤ 10
    rw [aggregateTop10_length _ t]
    omega
  · show (aggregateTop10 (fun r => r.product_id) t).length ≤ 10
    rw [aggregateTop10_length _ t]
    omega

/-- C9 witness: on the two-row all-missing-delay table the sellers view has
fewer than ten rows, and every aggregated mean delay is missing. -/
theorem c9_witness :
    (sellers (deriveTable raw2)).length < 10 ∧
    (sellers (deriveTable raw2)).map AggRow.mean_delay =
      List.replicate (sellers (deriveTable raw2)).length none :=
  ⟨(c9_degenerate_aggregation (deriveTable raw2)).1 (by decide),
    (c9_degenerate_aggregation (deriveTable raw2)).2.1 (by decide)⟩

/-- C5 counterexample: with no dataset, selecting "Conclusion and Insights"
renders no warning at all — the source has no dataset guard on that page —
and it renders its full static content rather than nothing. -/
theorem c5_counterexample :
    (runApp "Conclusion and Insights" none).any El.isWarning = false ∧
    runApp "Conclusion and Insights" none ≠ [] := by
  refine ⟨rfl, by decide⟩

/-- C5 (amended): with no dataset, "Understanding the Problem" and
"Factors and Causes" each render a warning and no charts; "Conclusion and
Insights" renders its static text regardless of dataset state, with no
warning and no charts; "Welcome" always renders. -/
theorem c5_page_guards :
    ((runApp "Understanding the Problem" none).any El.isWarning = true ∧
      (runApp "Understanding the Problem" none).any El.isChart = false) ∧
    ((runApp "Factors and Causes" none).any El.isWarning = true ∧
      (runApp "Factors and Causes" none).any El.isChart = false) ∧
    (∀ df : Option (List Row),
      El.title "🚀 Customer Satisfaction Case Study" ∈ runApp "Welcome" df ∧
      (runApp "Conclusion and Insights" df).any El.isWarning = false ∧
      (runApp "Conclusion and Insights" df).any El.isChart = false) := by
  refine ⟨⟨rfl, rfl⟩, ⟨rfl, rfl⟩, fun df => ?_⟩
  cases df <;> exact ⟨List.mem_cons_self _ _, rfl, rfl⟩

/-- C7 counterexample: when `pd.read_csv` fails, the run aborts with the
uncaught exception — no repository code turns it into a rendered inline
message, so the failed upload renders nothing. -/
theorem c7_counterexample :
    renderedOk (runScript "Welcome" (some (.error "ParserError: malformed CSV"))) =
      false ∧
    runScript "Welcome" (some (.error "ParserError: malformed CSV")) =
      .error "ParserError: malformed CSV" :=
  ⟨rfl, rfl⟩

/-- C7 (amended): on any page, a parse failure of the uploaded file
propagates out of the script run unchanged — the repository contains no
handler that surfaces it as an inline message. -/
theorem c7_parse_failure_propagates (page e : String) :
    runScript page (some (.error e)) = .error e ∧
    renderedOk (runScript page (some (.error e))) = false :=
  ⟨rfl, rfl⟩
